import Mathlib

/-!
Verification of the SFT training script `ddp_sft_full.py` (happy-llm, chapter 5).

The script's original logic is the cosine learning-rate schedule `get_lr`
and the per-step orchestration of `train_epoch` (gradient accumulation
cadence, logging cadence, and the two checkpoint cadences).  We embed these
shallowly:

* Python `float` arithmetic is modelled over `ℝ`; `int` over `ℤ`/`ℕ`.
* A Python runtime error (`ZeroDivisionError` from `x / 0`, `AssertionError`
  from a failed `assert`) is modelled as an `Except` error value, so
  `get_lr` returns `Except LrError ℝ`.
* The effectful body of `train_epoch` is modelled as the list of observable
  events one loop iteration performs, in program order.
-/

namespace DdpSft

/-- The errors the Python runtime can raise inside `get_lr`. -/
inductive LrError
  | divByZero
  | assertFail
deriving DecidableEq

/-- The subset of the argparse `args` record that the embedded code reads. -/
structure Args where
  learning_rate : ℝ
  warmup_iters : ℤ
  epochs : ℕ
  accumulation_steps : ℕ
  log_interval : ℕ
  save_interval : ℕ
  save_dir : String

/-- Embedding of `get_lr(it, all)`:

```python
def get_lr(it, all):
    warmup_iters = args.warmup_iters
    lr_decay_iters = all
    min_lr = args.learning_rate / 10
    if it < warmup_iters:
        return args.learning_rate * it / warmup_iters
    if it > lr_decay_iters:
        return min_lr
    decay_ratio = (it - warmup_iters) / (lr_decay_iters - warmup_iters)
    assert 0 <= decay_ratio <= 1
    coeff = 0.5 * (1.0 + math.cos(math.pi * decay_ratio))
    return min_lr + coeff * (args.learning_rate - min_lr)
```

Each Python division checks its divisor for `ZeroDivisionError`, and the
`assert` is the `assertFail` branch. -/
noncomputable def get_lr (args : Args) (it all : ℤ) : Except LrError ℝ :=
  let warmup_iters := args.warmup_iters
  let lr_decay_iters := all
  let min_lr := args.learning_rate / 10
  if it < warmup_iters then
    if warmup_iters = 0 then .error .divByZero
    else .ok (args.learning_rate * (it : ℝ) / (warmup_iters : ℝ))
  else if it > lr_decay_iters then
    .ok min_lr
  else if lr_decay_iters - warmup_iters = 0 then .error .divByZero
  else
    let decay_ratio : ℝ := ((it : ℝ) - (warmup_iters : ℝ)) / ((lr_decay_iters : ℝ) - (warmup_iters : ℝ))
    if 0 ≤ decay_ratio ∧ decay_ratio ≤ 1 then
      let coeff := 0.5 * (1.0 + Real.cos (Real.pi * decay_ratio))
      .ok (min_lr + coeff * (args.learning_rate - min_lr))
    else .error .assertFail

/-- The model-architecture descriptor: `lm_config = ModelConfig(dim=1024, n_layers=18)`;
`vocab_size` comes from `ModelConfig`'s defaults. Only the three fields that
appear in checkpoint filenames are embedded. -/
structure ModelConfig where
  dim : ℕ
  n_layers : ℕ
  vocab_size : ℕ
deriving DecidableEq

/-- Filename of the `save_interval`-cadence checkpoint:
`f'{args.save_dir}/sft_dim{lm_config.dim}_layers{lm_config.n_layers}_vocab_size{lm_config.vocab_size}.pth'`. -/
def intervalCkptFile (save_dir : String) (cfg : ModelConfig) : String :=
  save_dir ++ "/sft_dim" ++ toString cfg.dim ++ "_layers" ++ toString cfg.n_layers
    ++ "_vocab_size" ++ toString cfg.vocab_size ++ ".pth"

/-- Filename of the fixed 20000-step-cadence checkpoint:
`f'{args.save_dir}/sft_dim{lm_config.dim}_layers{lm_config.n_layers}_vocab_size{lm_config.vocab_size}_step{step+1}.pth'`. -/
def periodicCkptFile (save_dir : String) (cfg : ModelConfig) (step : ℕ) : String :=
  save_dir ++ "/sft_dim" ++ toString cfg.dim ++ "_layers" ++ toString cfg.n_layers
    ++ "_vocab_size" ++ toString cfg.vocab_size ++ "_step" ++ toString (step + 1) ++ ".pth"

/-- The observable actions one iteration of the `train_epoch` loop body
performs, in program order. `optStep` stands for the guarded block
`scaler.unscale_; clip_grad_norm_; scaler.step; scaler.update;
optimizer.zero_grad`. `saveCkpt` records the path a `torch.save` writes to. -/
inductive Event
  | setLr (lr : Except LrError ℝ)
  | forwardBackward
  | optStep
  | logStep (step : ℕ)
  | saveCkpt (file : String)

/-- Embedding of one iteration of the `for step, ... in enumerate(train_loader)`
loop body of `train_epoch(epoch)`, as the list of events it performs:

```python
lr = get_lr(epoch * iter_per_epoch + step, args.epochs * iter_per_epoch)
... param_group['lr'] = lr
... out = model(X, Y); ... scaler.scale(loss).backward()
if (step + 1) % args.accumulation_steps == 0:
    ... scaler.step(optimizer) ...; optimizer.zero_grad(set_to_none=True)
if step % args.log_interval == 0:
    Logger(...)
if (step + 1) % args.save_interval == 0:
    ... torch.save(state_dict, ckp)          # no step suffix
if (step + 1) % 20000 == 0:
    ... torch.save(state_dict, ckp)          # with _step{step+1} suffix
```
-/
noncomputable def stepEvents (args : Args) (cfg : ModelConfig)
    (epoch iter_per_epoch step : ℕ) : List Event :=
  [Event.setLr (get_lr args ((epoch * iter_per_epoch + step : ℕ) : ℤ)
      ((args.epochs * iter_per_epoch : ℕ) : ℤ)),
   Event.forwardBackward]
  ++ (if (step + 1) % args.accumulation_steps = 0 then [Event.optStep] else [])
  ++ (if step % args.log_interval = 0 then [Event.logStep step] else [])
  ++ (if (step + 1) % args.save_interval = 0 then
        [Event.saveCkpt (intervalCkptFile args.save_dir cfg)] else [])
  ++ (if (step + 1) % 20000 = 0 then
        [Event.saveCkpt (periodicCkptFile args.save_dir cfg step)] else [])

/-- Embedding of the masked-loss reduction of the forward pass:

```python
loss = out.last_loss / args.accumulation_steps
loss_mask = loss_mask.view(-1)
loss = torch.sum(loss * loss_mask) / loss_mask.sum()
```

The per-token losses and the flattened mask are lists of reals; the final
division is undefined (IEEE `0/0`) when `loss_mask.sum() == 0`, which we
model as `none`. No guard exists in the source; the `if` here only makes
the undefinedness explicit. -/
noncomputable def maskedLoss (last_loss loss_mask : List ℝ)
    (accumulation_steps : ℕ) : Option ℝ :=
  let loss := last_loss.map (fun x => x / (accumulation_steps : ℝ))
  let prods := List.zipWith (fun l m => l * m) loss loss_mask
  if loss_mask.sum = 0 then none
  else some (prods.sum / loss_mask.sum)

/-- A concrete settings record matching the script's argparse defaults
(`learning_rate=2e-4`, `accumulation_steps=8`, `log_interval=100`,
`save_interval=1000`, `out_dir="sft_model_215M"`), with a nonzero
`warmup_iters` so that the warmup phase is inhabited. -/
noncomputable def argsA : Args :=
  { learning_rate := 2e-4
    warmup_iters := 5
    epochs := 1
    accumulation_steps := 8
    log_interval := 100
    save_interval := 1000
    save_dir := "sft_model_215M" }

/-- The script's `lm_config = ModelConfig(dim=1024, n_layers=18)` with the
vocabulary size of the pretrained base model. -/
def cfgA : ModelConfig := ⟨1024, 18, 6144⟩

end DdpSft

namespace DdpSft

/-- Helper: in the warmup branch (`it < warmup_iters ≠ 0`) `get_lr` returns the
linear ramp value. -/
lemma get_lr_of_lt_warmup (args : Args) (it all : ℤ)
    (h : it < args.warmup_iters) (h0 : args.warmup_iters ≠ 0) :
    get_lr args it all = .ok (args.learning_rate * (it : ℝ) / (args.warmup_iters : ℝ)) := by
  simp only [get_lr]
  rw [if_pos h, if_neg h0]

/-- Helper: past the decay horizon (`it > all`, not in warmup) `get_lr` returns
the floor `learning_rate / 10`. -/
lemma get_lr_of_gt_decay (args : Args) (it all : ℤ)
    (h1 : args.warmup_iters ≤ it) (h2 : all < it) :
    get_lr args it all = .ok (args.learning_rate / 10) := by
  simp only [get_lr]
  rw [if_neg (by omega), if_pos (by omega)]

/-- Helper: the decay ratio is in `[0, 1]` whenever `warmup_iters ≤ it ≤ all`
and `warmup_iters < all`. -/
lemma decay_ratio_mem_unit (w it all : ℤ) (h1 : w ≤ it) (h2 : it ≤ all) (h3 : w < all) :
    0 ≤ ((it : ℝ) - (w : ℝ)) / ((all : ℝ) - (w : ℝ)) ∧
      ((it : ℝ) - (w : ℝ)) / ((all : ℝ) - (w : ℝ)) ≤ 1 := by
  have hd : (0 : ℝ) < (all : ℝ) - (w : ℝ) := by
    rw [sub_pos]
    exact_mod_cast h3
  constructor
  · apply div_nonneg _ hd.le
    rw [sub_nonneg]
    exact_mod_cast h1
  · rw [div_le_one hd]
    have : (it : ℝ) ≤ (all : ℝ) := by exact_mod_cast h2
    linarith

/-- Helper: in the cosine branch (`warmup_iters ≤ it ≤ all`, `warmup_iters < all`)
the assertion passes and `get_lr` returns the cosine interpolation. -/
lemma get_lr_of_cosine (args : Args) (it all : ℤ)
    (h1 : args.warmup_iters ≤ it) (h2 : it ≤ all) (h3 : args.warmup_iters < all) :
    get_lr args it all = .ok (args.learning_rate / 10 +
      0.5 * (1.0 + Real.cos (Real.pi *
        (((it : ℝ) - (args.warmup_iters : ℝ)) / ((all : ℝ) - (args.warmup_iters : ℝ))))) *
      (args.learning_rate - args.learning_rate / 10)) := by
  simp only [get_lr]
  rw [if_neg (by omega), if_neg (by omega), if_neg (by omega),
    if_pos (decay_ratio_mem_unit args.warmup_iters it all h1 h2 h3)]

/-- C1: for every step `it` with `0 ≤ it < warmup_iters` (`warmup_iters > 0`
follows), `get_lr(it, all)` equals `base_lr * it / warmup_iters`, and for a
nonnegative base rate this value is monotonically non-decreasing in `it`
over the warmup range. -/
theorem claim_C1_warmup_linear (args : Args) (it all : ℤ)
    (h0 : 0 ≤ it) (h1 : it < args.warmup_iters) :
    get_lr args it all = .ok (args.learning_rate * (it : ℝ) / (args.warmup_iters : ℝ)) ∧
    (0 ≤ args.learning_rate → ∀ it2 : ℤ, it ≤ it2 → it2 < args.warmup_iters →
      args.learning_rate * (it : ℝ) / (args.warmup_iters : ℝ) ≤
        args.learning_rate * (it2 : ℝ) / (args.warmup_iters : ℝ)) := by
  refine ⟨get_lr_of_lt_warmup args it all h1 (by omega), ?_⟩
  intro hlr it2 hle _
  have hw : (0 : ℝ) < (args.warmup_iters : ℝ) := by exact_mod_cast (by omega : (0:ℤ) < args.warmup_iters)
  have hcast : (it : ℝ) ≤ (it2 : ℝ) := by exact_mod_cast hle
  rw [div_le_div_iff_of_pos_right hw]
  exact mul_le_mul_of_nonneg_left hcast hlr

/-- Witness for C1 at `it = 3`, `all = 1000`, `warmup_iters = 5`. -/
theorem claim_C1_warmup_linear_witness :
    ((0:ℤ) ≤ 3 ∧ (3:ℤ) < argsA.warmup_iters) ∧
    (get_lr argsA 3 1000 = .ok (argsA.learning_rate * ((3:ℤ) : ℝ) / (argsA.warmup_iters : ℝ)) ∧
      (0 ≤ argsA.learning_rate → ∀ it2 : ℤ, 3 ≤ it2 → it2 < argsA.warmup_iters →
        argsA.learning_rate * ((3:ℤ) : ℝ) / (argsA.warmup_iters : ℝ) ≤
          argsA.learning_rate * (it2 : ℝ) / (argsA.warmup_iters : ℝ))) :=
  ⟨⟨by decide, by decide⟩, claim_C1_warmup_linear argsA 3 1000 (by decide) (by decide)⟩

/-- C2: for every step `it` with `it > all` and `it ≥ warmup_iters`,
`get_lr(it, all)` equals `base_lr / 10` exactly. -/
theorem claim_C2_floor (args : Args) (it all : ℤ)
    (h1 : all < it) (h2 : args.warmup_iters ≤ it) :
    get_lr args it all = .ok (args.learning_rate / 10) :=
  get_lr_of_gt_decay args it all h2 h1

/-- Witness for C2 at `it = 2000`, `all = 1000`. -/
theorem claim_C2_floor_witness :
    ((1000:ℤ) < 2000 ∧ argsA.warmup_iters ≤ 2000) ∧
    get_lr argsA 2000 1000 = .ok (argsA.learning_rate / 10) :=
  ⟨⟨by decide, by decide⟩, claim_C2_floor argsA 2000 1000 (by decide) (by decide)⟩

/-- C3: for every step `it` with `warmup_iters ≤ it ≤ all` and
`warmup_iters < all`, `get_lr(it, all)` equals
`min_lr + 0.5*(1+cos(pi*ratio))*(base_lr - min_lr)` with `min_lr = base_lr/10`
and `ratio = (it - warmup_iters)/(all - warmup_iters)`. -/
theorem claim_C3_cosine (args : Args) (it all : ℤ)
    (h1 : args.warmup_iters ≤ it) (h2 : it ≤ all) (h3 : args.warmup_iters < all) :
    get_lr args it all = .ok (args.learning_rate / 10 +
      0.5 * (1.0 + Real.cos (Real.pi *
        (((it : ℝ) - (args.warmup_iters : ℝ)) / ((all : ℝ) - (args.warmup_iters : ℝ))))) *
      (args.learning_rate - args.learning_rate / 10)) :=
  get_lr_of_cosine args it all h1 h2 h3

/-- Witness for C3 at `it = 500`, `all = 1000`. -/
theorem claim_C3_cosine_witness :
    (argsA.warmup_iters ≤ 500 ∧ (500:ℤ) ≤ 1000 ∧ argsA.warmup_iters < 1000) ∧
    get_lr argsA 500 1000 = .ok (argsA.learning_rate / 10 +
      0.5 * (1.0 + Real.cos (Real.pi *
        ((((500:ℤ) : ℝ) - (argsA.warmup_iters : ℝ)) / (((1000:ℤ) : ℝ) - (argsA.warmup_iters : ℝ))))) *
      (argsA.learning_rate - argsA.learning_rate / 10)) :=
  ⟨⟨by decide, by decide, by decide⟩,
    claim_C3_cosine argsA 500 1000 (by decide) (by decide) (by decide)⟩

/-- C4: at the boundary `it = warmup_iters` with `warmup_iters < all`,
`get_lr` returns exactly `base_lr` (cosine phase at ratio 0); with
`warmup_iters = 0` the warmup branch is never taken and `get_lr(0, all) = base_lr`. -/
theorem claim_C4_boundary (args : Args) (all : ℤ) (h : args.warmup_iters < all) :
    get_lr args args.warmup_iters all = .ok args.learning_rate := by
  rw [get_lr_of_cosine args args.warmup_iters all le_rfl h.le h]
  have hr : ((args.warmup_iters : ℝ) - (args.warmup_iters : ℝ)) /
      ((all : ℝ) - (args.warmup_iters : ℝ)) = 0 := by
    rw [sub_self, zero_div]
  rw [hr, mul_zero, Real.cos_zero]
  norm_num

/-- Witness for C4 at `warmup_iters = 5 < all = 1000`. -/
theorem claim_C4_boundary_witness :
    argsA.warmup_iters < 1000 ∧
    get_lr argsA argsA.warmup_iters 1000 = .ok argsA.learning_rate :=
  ⟨by decide, claim_C4_boundary argsA 1000 (by decide)⟩

/-- Counterexample to C5: at the valid input `it = 0`, `all = 1000` with
`warmup_iters = 5 > 0`, the warmup branch returns
`base_lr * 0 / warmup_iters = 0`, which is strictly below the claimed lower
bound `base_lr / 10 = 2e-5`. -/
theorem claim_C5_counterexample :
    get_lr argsA 0 1000 = .ok 0 ∧ (0 : ℝ) < argsA.learning_rate / 10 := by
  constructor
  · rw [get_lr_of_lt_warmup argsA 0 1000 (by decide) (by decide)]
    norm_num
  · show (0 : ℝ) < (2e-4 : ℝ) / 10
    norm_num

/-- C5 as amended: once past warmup (`it ≥ warmup_iters`, with
`warmup_iters < all` whenever the cosine branch is reached, and a nonnegative
base rate) the scheduler output lies within `[base_lr/10, base_lr]`. -/
theorem claim_C5_amended_range (args : Args) (it all : ℤ)
    (hw : args.warmup_iters ≤ it) (hc : it ≤ all → args.warmup_iters < all)
    (hlr : 0 ≤ args.learning_rate) :
    ∃ r, get_lr args it all = .ok r ∧
      args.learning_rate / 10 ≤ r ∧ r ≤ args.learning_rate := by
  by_cases hgt : all < it
  · exact ⟨_, get_lr_of_gt_decay args it all hw hgt, le_rfl, by linarith⟩
  · push_neg at hgt
    have h3 := hc hgt
    refine ⟨_, get_lr_of_cosine args it all hw hgt h3, ?_, ?_⟩
    all_goals
      have hcos1 := Real.cos_le_one (Real.pi *
        (((it : ℝ) - (args.warmup_iters : ℝ)) / ((all : ℝ) - (args.warmup_iters : ℝ))))
      have hcos2 := Real.neg_one_le_cos (Real.pi *
        (((it : ℝ) - (args.warmup_iters : ℝ)) / ((all : ℝ) - (args.warmup_iters : ℝ))))
      nlinarith [hlr, hcos1, hcos2]

/-- Witness for the amended C5 at `it = 500`, `all = 1000`. -/
theorem claim_C5_amended_range_witness :
    (argsA.warmup_iters ≤ 500 ∧ ((500:ℤ) ≤ 1000 → argsA.warmup_iters < 1000) ∧
      0 ≤ argsA.learning_rate) ∧
    ∃ r, get_lr argsA 500 1000 = .ok r ∧
      argsA.learning_rate / 10 ≤ r ∧ r ≤ argsA.learning_rate :=
  ⟨⟨by decide, by decide, by show (0:ℝ) ≤ (2e-4 : ℝ); norm_num⟩,
    claim_C5_amended_range argsA 500 1000 (by decide) (by decide)
      (by show (0:ℝ) ≤ (2e-4 : ℝ); norm_num)⟩

/-- C6: under the precondition `warmup_iters ≤ it ≤ all`, `warmup_iters < all`,
the decay ratio lies in `[0, 1]` and the `assert` in `get_lr` never fails. -/
theorem claim_C6_assert_unreachable (args : Args) (it all : ℤ)
    (h1 : args.warmup_iters ≤ it) (h2 : it ≤ all) (h3 : args.warmup_iters < all) :
    (0 ≤ ((it : ℝ) - (args.warmup_iters : ℝ)) / ((all : ℝ) - (args.warmup_iters : ℝ)) ∧
      ((it : ℝ) - (args.warmup_iters : ℝ)) / ((all : ℝ) - (args.warmup_iters : ℝ)) ≤ 1) ∧
    get_lr args it all ≠ .error .assertFail := by
  refine ⟨decay_ratio_mem_unit args.warmup_iters it all h1 h2 h3, ?_⟩
  rw [get_lr_of_cosine args it all h1 h2 h3]
  simp

/-- Witness for C6 at `it = 5 = warmup_iters`, `all = 1000`. -/
theorem claim_C6_assert_unreachable_witness :
    (argsA.warmup_iters ≤ 5 ∧ (5:ℤ) ≤ 1000 ∧ argsA.warmup_iters < 1000) ∧
    ((0 ≤ (((5:ℤ) : ℝ) - (argsA.warmup_iters : ℝ)) / (((1000:ℤ) : ℝ) - (argsA.warmup_iters : ℝ)) ∧
      (((5:ℤ) : ℝ) - (argsA.warmup_iters : ℝ)) / (((1000:ℤ) : ℝ) - (argsA.warmup_iters : ℝ)) ≤ 1) ∧
    get_lr argsA 5 1000 ≠ .error .assertFail) :=
  ⟨⟨by decide, by decide, by decide⟩,
    claim_C6_assert_unreachable argsA 5 1000 (by decide) (by decide) (by decide)⟩

/-- C10: with `warmup_iters = all` and `it = all`, neither the warmup branch
nor the floor branch is taken, and the decay-ratio division divides by
`all - warmup_iters = 0`: a `ZeroDivisionError`. -/
theorem claim_C10_div_by_zero (args : Args) (it all : ℤ)
    (hw : args.warmup_iters = all) (hl : all ≤ it) (hr : it ≤ all) :
    get_lr args it all = .error .divByZero := by
  simp only [get_lr]
  rw [if_neg (by omega), if_neg (by omega), if_pos (by omega)]

/-- Witness for C10 at `warmup_iters = it = all = 5`. -/
theorem claim_C10_div_by_zero_witness :
    (argsA.warmup_iters = 5 ∧ (5:ℤ) ≤ 5 ∧ (5:ℤ) ≤ 5) ∧
    get_lr argsA 5 5 = .error .divByZero :=
  ⟨⟨by decide, by decide, by decide⟩,
    claim_C10_div_by_zero argsA 5 5 (by decide) (by decide) (by decide)⟩

/-- C7: in `train_epoch`, the optimizer step (with unscale and clipping) and
the gradient zeroing occur exactly when `(step + 1) % accumulation_steps = 0`;
on every other step no `optStep` event happens, so gradients accumulate.
(`accumulation_steps > 0` is the Python precondition for the modulus.) -/
theorem claim_C7_optstep_cadence (args : Args) (cfg : ModelConfig)
    (epoch iter_per_epoch step : ℕ) (hacc : 0 < args.accumulation_steps) :
    Event.optStep ∈ stepEvents args cfg epoch iter_per_epoch step ↔
      (step + 1) % args.accumulation_steps = 0 := by
  constructor
  · intro hmem
    by_contra h
    simp only [stepEvents, List.mem_append, List.mem_cons, if_neg h] at hmem
    rcases hmem with hmem | hmem <;> revert hmem <;> split_ifs <;> simp
  · intro h
    simp [stepEvents, h]

/-- Witness for C7 at `step = 7` with `accumulation_steps = 8`. -/
theorem claim_C7_optstep_cadence_witness :
    0 < argsA.accumulation_steps ∧
    (Event.optStep ∈ stepEvents argsA cfgA 0 100 7 ↔
      (7 + 1) % argsA.accumulation_steps = 0) :=
  ⟨by decide, claim_C7_optstep_cadence argsA cfgA 0 100 7 (by decide)⟩

/-- C8: when the `save_interval` cadence and the fixed 20000-step cadence
coincide at the same step, both checkpoint files are written (not
deduplicated): the interval file named by exactly `dim`, `n_layers`,
`vocab_size` with no step suffix, and the periodic file with the additional
`_step{step+1}` suffix; with `dim=1024`, `n_layers=18`, the periodic name at
1-based step 1000 carries the `_step1000` suffix and differs from the
interval name. -/
theorem claim_C8_both_checkpoints (args : Args) (cfg : ModelConfig)
    (epoch iter_per_epoch step : ℕ)
    (hs : (step + 1) % args.save_interval = 0) (hp : (step + 1) % 20000 = 0) :
    Event.saveCkpt (intervalCkptFile args.save_dir cfg) ∈
        stepEvents args cfg epoch iter_per_epoch step ∧
    Event.saveCkpt (periodicCkptFile args.save_dir cfg step) ∈
        stepEvents args cfg epoch iter_per_epoch step ∧
    periodicCkptFile "sft_model_215M" ⟨1024, 18, 6144⟩ 999 =
      "sft_model_215M/sft_dim1024_layers18_vocab_size6144_step1000.pth" ∧
    periodicCkptFile "sft_model_215M" ⟨1024, 18, 6144⟩ 999 ≠
      intervalCkptFile "sft_model_215M" ⟨1024, 18, 6144⟩ := by
  refine ⟨?_, ?_, by decide, by decide⟩ <;> simp [stepEvents, hs, hp]

/-- Witness for C8 at `step = 19999` with `save_interval = 1000`, where both
cadences coincide (`20000 % 1000 = 0` and `20000 % 20000 = 0`). -/
theorem claim_C8_both_checkpoints_witness :
    ((19999 + 1) % argsA.save_interval = 0 ∧ (19999 + 1) % 20000 = 0) ∧
    (Event.saveCkpt (intervalCkptFile argsA.save_dir cfgA) ∈
        stepEvents argsA cfgA 0 100000 19999 ∧
    Event.saveCkpt (periodicCkptFile argsA.save_dir cfgA 19999) ∈
        stepEvents argsA cfgA 0 100000 19999 ∧
    periodicCkptFile "sft_model_215M" ⟨1024, 18, 6144⟩ 999 =
      "sft_model_215M/sft_dim1024_layers18_vocab_size6144_step1000.pth" ∧
    periodicCkptFile "sft_model_215M" ⟨1024, 18, 6144⟩ 999 ≠
      intervalCkptFile "sft_model_215M" ⟨1024, 18, 6144⟩) :=
  ⟨⟨by decide, by decide⟩,
    claim_C8_both_checkpoints argsA cfgA 0 100000 19999 (by decide) (by decide)⟩

/-- C9: for a batch whose `loss_mask` is all-zero, the masked loss
`sum(loss * loss_mask) / loss_mask.sum()` divides by zero and is undefined;
nothing in the training step guards it. -/
theorem claim_C9_allzero_mask (last_loss loss_mask : List ℝ)
    (accumulation_steps : ℕ) (h : ∀ x ∈ loss_mask, x = (0:ℝ)) :
    maskedLoss last_loss loss_mask accumulation_steps = none := by
  simp only [maskedLoss]
  rw [if_pos (List.sum_eq_zero h)]

/-- Witness for C9 on the all-zero mask `[0, 0]`. -/
theorem claim_C9_allzero_mask_witness :
    (∀ x ∈ ([0, 0] : List ℝ), x = (0:ℝ)) ∧
    maskedLoss [1, 2] [0, 0] 8 = none :=
  ⟨by simp, claim_C9_allzero_mask [1, 2] [0, 0] 8 (by simp)⟩

end DdpSft
